import Mathlib

/-!
Verification of the claude-code-manager core against its source.

The embedding follows the JavaScript sources:
  * `src/lib/status-detector.js`  -> `StatusDetector` and its operations
  * `src/lib/pty-handler.js` variant with reset prefix (second file shipped
    alongside `src/lib/summarizer.js`) -> `PtyHandler`
  * `src/lib/session-manager.js`  -> `SessionManager` state and operations
  * `src/lib/summarizer.js`       -> `Summarizer.summarize`
  * `src/lib/context-tracker.js`  -> `ContextTracker`
  * `src/unnamed/part_009`        -> `UsageTracker`

Strings are modelled with Lean `String` (JavaScript `.length` counts UTF-16
units; all relevant data is ASCII, where the two coincide).  `Date.now()`
timestamps are natural numbers (milliseconds); in JavaScript time is
monotone, so `Nat` subtraction matches the source's subtraction at every
reachable state.  External effects (process spawns, probe invocations,
summarizer calls, `pty.kill()`) are made observable by returning invocation
counts, and the outcome of an external call is passed in as a parameter.
-/

/-! ## JavaScript character classes -/

/-- The character class matched by `\s` in a JavaScript regular expression. -/
def jsWhitespace (c : Char) : Bool :=
  c = ' ' || c = '\t' || c = '\n' || c.toNat = 13 || c.toNat = 11 || c.toNat = 12 ||
  c.toNat = 0xa0 || c.toNat = 0x1680 || (0x2000 ≤ c.toNat && c.toNat ≤ 0x200a) ||
  c.toNat = 0x2028 || c.toNat = 0x2029 || c.toNat = 0x202f || c.toNat = 0x205f ||
  c.toNat = 0x3000 || c.toNat = 0xfeff

/-- Characters `.` does NOT match in a JavaScript regex (line terminators). -/
def jsLineTerm (c : Char) : Bool :=
  c = '\n' || c = '\r' || c.toNat = 0x2028 || c.toNat = 0x2029

/-- Source `[0-9;]`, the parameter characters of the CSI pattern `\x1b\[[0-9;]*[A-Za-z]`. -/
def isCsiParam (c : Char) : Bool := c.isDigit || c = ';'

/-- Source `[A-Za-z]`. -/
def isAsciiLetter (c : Char) : Bool :=
  ('A' ≤ c && c ≤ 'Z') || ('a' ≤ c && c ≤ 'z')

/-- ASCII lowercasing, as `String.prototype.toLowerCase` acts on the
ASCII range (all pattern literals in the source are ASCII). -/
def lowerStr (s : String) : String := String.mk (s.toList.map Char.toLower)

/-- Substring test: does `s` contain `pat` (both taken literally)?  Models a
JavaScript regex `.test` with a literal pattern. -/
def containsSub (s pat : String) : Bool :=
  s.toList.tails.any (fun t => pat.toList.isPrefixOf t)

/-- Does `s` end with the literal `suf`?  (Used to phrase "the window ends in
`"$ "`" hypotheses.) -/
def endsWithStr (suf s : String) : Bool :=
  suf.toList.reverse.isPrefixOf s.toList.reverse

/-! ## stripAnsi (src/lib/status-detector.js lines 5-9)

Four global regex replacements applied in sequence:
  1. `/\x1b\[[0-9;]*[A-Za-z]/g`  (CSI)
  2. `/\x1b\][^\x07]*\x07/g`     (OSC)
  3. `/\x1b[PX^_][^\x1b]*\x1b\\/g` (DCS/SOS/PM/APC)
  4. `/\x1b./g`                  (other escapes; `.` excludes line terminators)
Each is implemented as a left-to-right scanner; a JavaScript global replace
also scans left to right and, because every match starts with `\x1b` and the
scanners only buffer characters that cannot start a match, the scanners
remove exactly the matched substrings. -/

inductive CsiMode where
  | norm : CsiMode
  | esc : CsiMode
  | csi (ps : List Char) : CsiMode

def csiGo : CsiMode → List Char → List Char
  | .norm, [] => []
  | .norm, c :: r => if c = '\x1b' then csiGo .esc r else c :: csiGo .norm r
  | .esc, [] => ['\x1b']
  | .esc, c :: r =>
      if c = '[' then csiGo (.csi []) r
      else if c = '\x1b' then '\x1b' :: csiGo .esc r
      else '\x1b' :: c :: csiGo .norm r
  | .csi ps, [] => '\x1b' :: '[' :: ps.reverse
  | .csi ps, c :: r =>
      if isCsiParam c then csiGo (.csi (c :: ps)) r
      else if isAsciiLetter c then csiGo .norm r
      else if c = '\x1b' then '\x1b' :: '[' :: ps.reverse ++ csiGo .esc r
      else '\x1b' :: '[' :: ps.reverse ++ c :: csiGo .norm r

inductive OscMode where
  | norm : OscMode
  | esc : OscMode
  | osc (acc : List Char) : OscMode

def oscGo : OscMode → List Char → List Char
  | .norm, [] => []
  | .norm, c :: r => if c = '\x1b' then oscGo .esc r else c :: oscGo .norm r
  | .esc, [] => ['\x1b']
  | .esc, c :: r =>
      if c = ']' then oscGo (.osc []) r
      else if c = '\x1b' then '\x1b' :: oscGo .esc r
      else '\x1b' :: c :: oscGo .norm r
  | .osc acc, [] => '\x1b' :: ']' :: acc.reverse
  | .osc acc, c :: r =>
      if c = '\x07' then oscGo .norm r else oscGo (.osc (c :: acc)) r

inductive DcsMode where
  | norm : DcsMode
  | esc : DcsMode
  | dcs (intro : Char) (acc : List Char) : DcsMode
  | dcsEsc (intro : Char) (acc : List Char) : DcsMode

def isDcsIntro (c : Char) : Bool := c = 'P' || c = 'X' || c = '^' || c = '_'

def dcsGo : DcsMode → List Char → List Char
  | .norm, [] => []
  | .norm, c :: r => if c = '\x1b' then dcsGo .esc r else c :: dcsGo .norm r
  | .esc, [] => ['\x1b']
  | .esc, c :: r =>
      if isDcsIntro c then dcsGo (.dcs c []) r
      else if c = '\x1b' then '\x1b' :: dcsGo .esc r
      else '\x1b' :: c :: dcsGo .norm r
  | .dcs i acc, [] => '\x1b' :: i :: acc.reverse
  | .dcs i acc, c :: r =>
      if c = '\x1b' then dcsGo (.dcsEsc i acc) r else dcsGo (.dcs i (c :: acc)) r
  | .dcsEsc i acc, [] => '\x1b' :: i :: acc.reverse ++ ['\x1b']
  | .dcsEsc i acc, c :: r =>
      if c = '\\' then dcsGo .norm r
      else '\x1b' :: i :: acc.reverse ++
        (if isDcsIntro c then dcsGo (.dcs c []) r
         else if c = '\x1b' then '\x1b' :: dcsGo .esc r
         else '\x1b' :: c :: dcsGo .norm r)

inductive EscDotMode where
  | norm : EscDotMode
  | esc : EscDotMode

def escDotGo : EscDotMode → List Char → List Char
  | .norm, [] => []
  | .norm, c :: r => if c = '\x1b' then escDotGo .esc r else c :: escDotGo .norm r
  | .esc, [] => ['\x1b']
  | .esc, c :: r =>
      if jsLineTerm c then '\x1b' :: c :: escDotGo .norm r
      else escDotGo .norm r

/-- Source `stripAnsi` from `src/lib/status-detector.js`: the four replacements in
source order. -/
def stripAnsi (s : String) : String :=
  String.mk (escDotGo .norm (dcsGo .norm (oscGo .norm (csiGo .norm s.toList))))

/-- The CSI-only strip `data.replace(/\x1b\[[0-9;]*[A-Za-z]/g, '')` used by
`StatusDetector.onInput` (line 143). -/
def stripCsiOnly (s : String) : String := String.mk (csiGo .norm s.toList)

/-! ## isUiRedraw (src/lib/status-detector.js lines 15-25) -/

/-- Source `/\x1b\[\d*A/` (resp. `G`): an ESC `[` followed by a digit run whose first
non-digit is the target letter.  (The digit run cannot backtrack onto the
letter since digits are not letters.) -/
def escBracketRunLetter (target : Char) (l : List Char) : Bool :=
  l.tails.any fun t =>
    match t with
    | '\x1b' :: '[' :: r => (r.dropWhile Char.isDigit).head? = some target
    | _ => false

def isUiRedraw (s : String) : Bool :=
  escBracketRunLetter 'A' s.toList || containsSub s "\x1b[2K" ||
  escBracketRunLetter 'G' s.toList

/-! ## Waiting / idle patterns (src/lib/status-detector.js lines 45-63) -/

/-- Source `/c\s*$/`: the string, with trailing JavaScript whitespace removed, ends
with the character `c`. -/
def endsWithCharThenWs (c : Char) (s : String) : Bool :=
  (s.toList.reverse.dropWhile jsWhitespace).head? = some c

/-- Source `/pat\s*$/` for a literal `pat` (on an already-lowercased string). -/
def endsWithSeqThenWs (pat : String) (s : String) : Bool :=
  pat.toList.reverse.isPrefixOf (s.toList.reverse.dropWhile jsWhitespace)

/-- No character of `l` is a JavaScript line terminator (the gap matched by
`.*`). -/
def noLineTerm (l : List Char) : Bool := l.all (fun c => !jsLineTerm c)

/-- Source `/p1.*p2/` on an already-lowercased string: some occurrence of `p1` is
followed, with no line terminator in between, by an occurrence of `p2`. -/
def matchWithGap (p1 p2 : String) (s : String) : Bool :=
  let l := s.toList
  let a := p1.toList
  let b := p2.toList
  (List.range (l.length + 1)).any fun i =>
    a.isPrefixOf (l.drop i) &&
    (List.range (l.length + 1)).any fun k =>
      noLineTerm ((l.drop (i + a.length)).take k) &&
      b.isPrefixOf (l.drop (i + a.length + k))

/-- Source `this.waitingPatterns` (lines 45-56): true iff any of the ten patterns
matches.  All patterns but the first and last are case-insensitive literal
containment tests. -/
def waitingMatch (s : String) : Bool :=
  let ls := lowerStr s
  endsWithCharThenWs '?' s ||
  containsSub ls "(y/n)" ||
  containsSub ls "[y/n]" ||
  containsSub ls "[yes/no]" ||
  containsSub ls "press enter" ||
  containsSub ls "continue?" ||
  containsSub ls "proceed?" ||
  containsSub ls "confirm" ||
  containsSub ls "(yes/no)" ||
  matchWithGap "enter to select" "esc to cancel" ls

/-- Source `this.idlePatterns` (lines 59-63). -/
def idleMatch (s : String) : Bool :=
  endsWithCharThenWs '>' s ||
  endsWithCharThenWs '$' s ||
  endsWithSeqThenWs "claude>" (lowerStr s)

/-! ## StatusDetector (src/lib/status-detector.js)

The `onStatusChange` callback is modelled by returning the emitted status (if
any) next to the new state.  The 150 ms `setTimeout` scheduled by `onOutput`
is modelled by the flag `pendingWorkingTimeout` plus a separate operation
`timeoutFire` standing for the timer callback. -/

structure StatusDetector where
  lastOutputTime : Nat
  lastOutput : String
  status : String
  outputBuffer : String
  outputBurstStart : Nat
  pendingWorkingTimeout : Bool
  draftLength : Nat
  terminalBuffer : String
  resizeCooldownUntil : Nat
  deriving Repr, DecidableEq

def StatusDetector.init : StatusDetector :=
  { lastOutputTime := 0
    lastOutput := ""
    status := "idle"
    outputBuffer := ""
    outputBurstStart := 0
    pendingWorkingTimeout := false
    draftLength := 0
    terminalBuffer := ""
    resizeCooldownUntil := 0 }

/-- Source `_updateStatus` (lines 210-217): store and notify only when the value
changes. -/
def StatusDetector.updateStatus (d : StatusDetector) (newStatus : String) :
    StatusDetector × Option String :=
  if newStatus ≠ d.status then ({ d with status := newStatus }, some newStatus)
  else (d, none)

/-- JavaScript `s.slice(-n)`: the last `n` characters. -/
def sliceLast (n : Nat) (s : String) : String :=
  String.mk (s.toList.drop (s.toList.length - n))

/-- Source `onOutput` (lines 66-120). -/
def StatusDetector.onOutput (d : StatusDetector) (data : String) (now : Nat) :
    StatusDetector × Option String :=
  let d := { d with lastOutputTime := now, lastOutput := data }
  let tb := d.terminalBuffer ++ data
  let tb := if tb.length > 2000 then sliceLast 2000 tb else tb
  let d := { d with terminalBuffer := tb }
  if now < d.resizeCooldownUntil then (d, none)
  else if isUiRedraw data then (d, none)
  else
    let visibleData := stripAnsi data
    let d := if now - d.outputBurstStart > 500 then
        { d with outputBuffer := "", outputBurstStart := now } else d
    let d := { d with outputBuffer := d.outputBuffer ++ visibleData }
    if waitingMatch d.outputBuffer then d.updateStatus "waiting"
    else if d.outputBuffer.length > 20 ∧ d.draftLength = 0 then
      d.updateStatus "working"
    else if ¬d.pendingWorkingTimeout ∧ d.status ≠ "working" ∧ d.draftLength = 0 then
      ({ d with pendingWorkingTimeout := true }, none)
    else (d, none)

/-- The body of the 150 ms timer scheduled in `onOutput` (lines 113-118); it
can only run while the timer is pending. -/
def StatusDetector.timeoutFire (d : StatusDetector) : StatusDetector × Option String :=
  if d.pendingWorkingTimeout then
    let d := { d with pendingWorkingTimeout := false }
    if d.outputBuffer.length > 5 ∧ d.draftLength = 0 then d.updateStatus "working"
    else (d, none)
  else (d, none)

/-- One step of the draft-length fold in `onInput` (lines 150-160). -/
def draftStep (n : Nat) (c : Char) : Nat :=
  let code := c.toNat
  if code = 127 ∨ code = 8 then n - 1
  else if code ≥ 32 ∨ code = 9 then n + 1
  else n

/-- Source `onInput` (lines 122-170). -/
def StatusDetector.onInput (d : StatusDetector) (data : String) :
    StatusDetector × Option String :=
  if data.toList.contains '\r' || data.toList.contains '\n' then
    let d := { d with draftLength := 0 }
    if d.status = "draft" then d.updateStatus "working" else (d, none)
  else
    let cleanedData := stripCsiOnly data
    if cleanedData = "" then (d, none)
    else
      let newLen := cleanedData.toList.foldl draftStep d.draftLength
      let d := { d with draftLength := newLen }
      if newLen > 0 ∧ d.status ≠ "working" then d.updateStatus "draft"
      else if newLen = 0 ∧ d.status = "draft" then d.updateStatus "idle"
      else (d, none)

/-- Source `tick` (lines 172-208). -/
def StatusDetector.tick (d : StatusDetector) (now : Nat) :
    StatusDetector × Option String :=
  if now - d.lastOutputTime > 2000 ∧ d.status = "working" then
    if waitingMatch d.terminalBuffer then d.updateStatus "waiting"
    else if idleMatch d.terminalBuffer then d.updateStatus "idle"
    else if d.draftLength > 0 then d.updateStatus "draft"
    else d.updateStatus "idle"
  else (d, none)

/-- Source `onResize` (lines 223-231). -/
def StatusDetector.onResize (d : StatusDetector) (now : Nat) :
    StatusDetector × Option String :=
  let d := { d with resizeCooldownUntil := now + 500 }
  if d.draftLength = 0 ∧ d.status = "working" then d.updateStatus "idle"
  else (d, none)

/-- Source `reset` (lines 233-240); note it leaves `outputBuffer`,
`outputBurstStart` and `pendingWorkingTimeout` untouched. -/
def StatusDetector.reset (d : StatusDetector) : StatusDetector :=
  { d with
      lastOutputTime := 0
      lastOutput := ""
      status := "idle"
      draftLength := 0
      terminalBuffer := ""
      resizeCooldownUntil := 0 }

/-! ## Basic lemmas about `_updateStatus` -/

theorem updateStatus_fst (d : StatusDetector) (s : String) :
    (d.updateStatus s).1 = { d with status := s } := by
  unfold StatusDetector.updateStatus
  split
  · rfl
  · next h =>
      rw [not_not] at h
      subst h
      rfl

theorem updateStatus_snd (d : StatusDetector) (s t : String)
    (h : (d.updateStatus s).2 = some t) : t = s ∧ s ≠ d.status := by
  unfold StatusDetector.updateStatus at h
  split at h
  · next hne => exact ⟨(Option.some.injEq _ _ ▸ h).symm, hne⟩
  · simp at h

/-- C2 helper: the burst buffer as it stands when the waiting patterns are
checked inside `onOutput`: reset if the burst window lapsed, then the
ANSI-stripped data appended. -/
def burstAfter (d : StatusDetector) (data : String) (now : Nat) : String :=
  (if now - d.outputBurstStart > 500 then "" else d.outputBuffer) ++ stripAnsi data

/-- C2: outside the resize cooldown, for non-redraw data, a waiting-pattern
match on the post-append burst buffer makes the status `waiting` on that very
call, and the working rules are skipped (no working transition, no debounce
timer scheduled). -/
theorem onOutput_waiting_preempts_working (d : StatusDetector) (data : String) (now : Nat)
    (hcool : d.resizeCooldownUntil ≤ now)
    (hredraw : isUiRedraw data = false)
    (hdraft : d.draftLength = 0)
    (hmatch : waitingMatch (burstAfter d data now) = true) :
    (d.onOutput data now).1.status = "waiting" ∧
    (d.onOutput data now).1.pendingWorkingTimeout = d.pendingWorkingTimeout := by
  have h1 : ¬ (now < d.resizeCooldownUntil) := Nat.not_lt.mpr hcool
  unfold StatusDetector.onOutput
  unfold burstAfter at hmatch
  by_cases hb : now - d.outputBurstStart > 500 <;>
    simp only [hb, if_true, if_false, String.empty_append] at hmatch ⊢ <;>
    simp [h1, hredraw, hmatch, updateStatus_fst]

/-- Witness for C2 at the spec's example input. -/
theorem onOutput_waiting_preempts_working_witness :
    (StatusDetector.init.onOutput "Continue? (y/n)" 1000).1.status = "waiting" ∧
    (StatusDetector.init.onOutput "Continue? (y/n)" 1000).1.pendingWorkingTimeout =
      StatusDetector.init.pendingWorkingTimeout :=
  onOutput_waiting_preempts_working StatusDetector.init "Continue? (y/n)" 1000
    (by decide) (by decide) (by decide) (by decide)

/-- A rolling window that ends in `"$ "` matches the `/\$\s*$/` idle
pattern. -/
theorem endsWithStr_dollar_idleMatch (s : String)
    (h : endsWithStr "$ " s = true) : idleMatch s = true := by
  unfold endsWithStr at h
  obtain ⟨t, ht⟩ := List.isPrefixOf_iff_prefix.mp h
  unfold idleMatch endsWithCharThenWs
  have hrev : s.toList.reverse = ' ' :: '$' :: t := by
    rw [← ht]; rfl
  rw [hrev]
  simp [List.dropWhile, jsWhitespace]

/-- C3: with status `working` and more than 2000 ms of silence, a tick whose
rolling window matches no waiting pattern and ends in `"$ "` moves the status
to `idle`; and in general such a silent tick never leaves the status at
`working`. -/
theorem tick_silence_working_to_idle (d : StatusDetector) (now : Nat)
    (hw : d.status = "working")
    (hsil : now - d.lastOutputTime > 2000)
    (hnowait : waitingMatch d.terminalBuffer = false)
    (hend : endsWithStr "$ " d.terminalBuffer = true) :
    (d.tick now).1.status = "idle" ∧
    ∀ (e : StatusDetector) (m : Nat), e.status = "working" → m - e.lastOutputTime > 2000 →
      (e.tick m).1.status ≠ "working" := by
  constructor
  · unfold StatusDetector.tick
    simp [hw, hsil, hnowait, endsWithStr_dollar_idleMatch _ hend, updateStatus_fst]
  · intro e m hw' hsil'
    unfold StatusDetector.tick
    simp only [hw', hsil', and_self, if_true]
    split
    · simp [updateStatus_fst]
    · split
      · simp [updateStatus_fst]
      · split <;> simp [updateStatus_fst]

/-- Witness for C3: silence of 2100 ms, window `"abc$ "`. -/
theorem tick_silence_working_to_idle_witness :
    (StatusDetector.tick
      { StatusDetector.init with status := "working", terminalBuffer := "abc$ " }
      2100).1.status = "idle" :=
  (tick_silence_working_to_idle
    { StatusDetector.init with status := "working", terminalBuffer := "abc$ " }
    2100 (by decide) (by decide) (by decide) (by decide)).1

/-! ## PtyHandler

The buffer logic of the `PtyHandler` variant with smart truncation and the
reset-prefix `getBuffer` (the second file shipped in `src/lib/summarizer.js`;
claim sources cite it as the source of the reset prefix).  The buffer is a
character list; JavaScript `.length` counts UTF-16 units, which coincides on
the ASCII terminal data.  `onData` also forwards `data` to the registered
callback; that routing belongs to the `SessionManager` model below. -/

def BUFFER_CAP : Nat := 1024 * 1024
def BUFFER_KEEP : Nat := 512 * 1024

/-- Source `[0-9;:]` of the orphan-escape pattern `/^[0-9;:]*[A-Za-z]/`. -/
def isOrphanParam (c : Char) : Bool := c.isDigit || c = ';' || c = ':'

/-- Source `this.buffer.replace(/^[0-9;:]*[A-Za-z]/, '')`: drop a leading run of
parameter characters plus one letter, if the character after the maximal run
is a letter (a digit/`;`/`:` is not a letter, so the regex cannot match with
a shorter run). -/
def stripLeadingOrphan (l : List Char) : List Char :=
  match l.drop (l.takeWhile isOrphanParam).length with
  | c :: rest => if isAsciiLetter c then rest else l
  | [] => l

/-- Source `buffer.indexOf('\n', pos)` (absolute index, `none` for `-1`). -/
def indexOfFrom (c : Char) (pos : Nat) (l : List Char) : Option Nat :=
  match (l.drop pos).findIdx? (· = c) with
  | some k => some (pos + k)
  | none => none

/-- The newline adjustment of a tentative cut point `q` (summarizer.js lines
131-134): move to just past the next newline if one occurs within 1000
characters of `q`. -/
def ptyCutFrom (q : Nat) (b : List Char) : Nat :=
  match indexOfFrom '\n' q b with
  | some idx => if idx < q + 1000 then idx + 1 else q
  | none => q

/-- The adjusted cut point for an over-cap buffer `b`: start 512 KB from the
end, then adjust to the next line boundary. -/
def ptyCut (b : List Char) : Nat := ptyCutFrom (b.length - BUFFER_KEEP) b

/-- The `onData` buffer update (summarizer.js lines 125-141): append, and when
the 1 MB cap is exceeded cut from the front at the adjusted cut point, then
strip an orphaned partial escape sequence from the new head. -/
def ptyOnData (buffer data : List Char) : List Char :=
  if (buffer ++ data).length > BUFFER_CAP then
    stripLeadingOrphan ((buffer ++ data).drop (ptyCut (buffer ++ data)))
  else buffer ++ data

structure PtyHandler where
  buffer : List Char
  deriving Repr, DecidableEq

def PtyHandler.init : PtyHandler := { buffer := [] }

/-- The fixed terminal-reset prefix of `getBuffer` (summarizer.js line 181):
attribute reset, charset reset, cursor show, line-wrap enable. -/
def resetPrefix : String := "\x1b[0m\x1b(B\x1b[?25h\x1b[?7h"

/-- Source `getBuffer` (summarizer.js lines 175-182). -/
def PtyHandler.getBuffer (p : PtyHandler) : String :=
  resetPrefix ++ String.mk p.buffer

/-- Source `pre` is a literal prefix of `s`. -/
def strStartsWith (pre s : String) : Bool := pre.toList.isPrefixOf s.toList

theorem stripLeadingOrphan_length_le (l : List Char) :
    (stripLeadingOrphan l).length ≤ l.length := by
  unfold stripLeadingOrphan
  cases h : l.drop (l.takeWhile isOrphanParam).length with
  | nil => simp only [h]; exact Nat.le_refl _
  | cons c rest =>
      have h1 : (l.drop (l.takeWhile isOrphanParam).length).length ≤ l.length := by
        rw [List.length_drop]; omega
      rw [h] at h1
      simp only [List.length_cons] at h1
      simp only [h]
      split <;> omega

theorem indexOfFrom_ge (c : Char) (pos : Nat) (l : List Char) (idx : Nat)
    (h : indexOfFrom c pos l = some idx) : pos ≤ idx := by
  unfold indexOfFrom at h
  cases hfi : (l.drop pos).findIdx? (· = c) with
  | none => rw [hfi] at h; cases h
  | some k =>
      rw [hfi] at h
      have h2 := Option.some.inj h
      omega

theorem ptyCutFrom_ge (q : Nat) (b : List Char) : q ≤ ptyCutFrom q b := by
  unfold ptyCutFrom
  cases hidx : indexOfFrom '\n' q b with
  | none => simp only [hidx]; exact Nat.le_refl _
  | some idx =>
      have hge : q ≤ idx := indexOfFrom_ge _ _ _ _ hidx
      simp only [hidx]
      split
      · exact Nat.le_succ_of_le hge
      · exact Nat.le_refl _

theorem ptyCut_ge (b : List Char) : b.length - BUFFER_KEEP ≤ ptyCut b :=
  ptyCutFrom_ge (b.length - BUFFER_KEEP) b

theorem ptyOnData_length_le (buffer data : List Char) :
    (ptyOnData buffer data).length ≤ BUFFER_CAP := by
  unfold ptyOnData
  split
  · next hbig =>
      have h1 := stripLeadingOrphan_length_le
        ((buffer ++ data).drop (ptyCut (buffer ++ data)))
      have h2 : ((buffer ++ data).drop (ptyCut (buffer ++ data))).length =
          (buffer ++ data).length - ptyCut (buffer ++ data) := List.length_drop ..
      have h3 := ptyCut_ge (buffer ++ data)
      have h4 : BUFFER_KEEP ≤ BUFFER_CAP := by norm_num [BUFFER_KEEP, BUFFER_CAP]
      omega
  · next hsmall => omega

/-- C5: after any sequence of output chunks the internal buffer never exceeds
the 1 MB cap, and `getBuffer` always returns the fixed terminal-reset prefix
followed by the retained buffer. -/
theorem pty_buffer_cap_and_reset_prefix (chunks : List (List Char)) :
    (chunks.foldl ptyOnData PtyHandler.init.buffer).length ≤ 1024 * 1024 ∧
    PtyHandler.getBuffer ⟨chunks.foldl ptyOnData PtyHandler.init.buffer⟩ =
      "\x1b[0m\x1b(B\x1b[?25h\x1b[?7h" ++
        String.mk (chunks.foldl ptyOnData PtyHandler.init.buffer) ∧
    strStartsWith "\x1b[0m\x1b(B\x1b[?25h\x1b[?7h"
      (PtyHandler.getBuffer ⟨chunks.foldl ptyOnData PtyHandler.init.buffer⟩) = true := by
  have hlen : ∀ (l : List (List Char)) (b : List Char), b.length ≤ BUFFER_CAP →
      (l.foldl ptyOnData b).length ≤ BUFFER_CAP := by
    intro l
    induction l with
    | nil => intro b hb; simpa using hb
    | cons a t ih =>
        intro b _
        exact ih (ptyOnData b a) (ptyOnData_length_le b a)
  refine ⟨hlen chunks [] (by norm_num [BUFFER_CAP]), rfl, ?_⟩
  unfold strStartsWith PtyHandler.getBuffer resetPrefix
  exact List.isPrefixOf_iff_prefix.mpr ⟨_, rfl⟩

/-! ## UsageTracker (src/unnamed/part_009)

`getAccurateUsage` is async with a single await on `fetchClaudeUsage()`.  The
synchronous prefix (cache check, single-flight check, setting
`fetchInProgress`) is `getAccurateUsageStart`; the continuation after the
await is `getAccurateUsageFinish`, taking the probe outcome as a parameter
(`Except.error` models a rejected promise).  The returned `Nat` counts
`fetchClaudeUsage` invocations started by the call.  `now` is read once at
the top of the call, as in the source. -/

structure UsageSession where
  percent : Option Nat
  deriving Repr, DecidableEq

structure UsageData where
  session : Option UsageSession
  deriving Repr, DecidableEq

structure UsageTracker where
  accurateCache : Option UsageData
  accurateCacheTime : Nat
  fetchInProgress : Bool
  deriving Repr, DecidableEq

/-- Source `this.accurateCacheTTL` (4 minutes). -/
def accurateCacheTTL : Nat := 240000

/-- Source `this.accurateCache && (now - this.accurateCacheTime) < this.accurateCacheTTL`. -/
def usageCacheFresh (u : UsageTracker) (now : Nat) : Bool :=
  match u.accurateCache with
  | some _ => now - u.accurateCacheTime < accurateCacheTTL
  | none => false

inductive UsageStart where
  | immediate (result : Option UsageData) : UsageStart
  | fetching : UsageStart
  deriving Repr, DecidableEq

/-- Source `getAccurateUsage` (part_009 lines 38-53) up to the await: fresh cache
and in-flight checks, then mark the fetch in progress. -/
def getAccurateUsageStart (u : UsageTracker) (now : Nat) :
    UsageTracker × UsageStart × Nat :=
  if usageCacheFresh u now then (u, .immediate u.accurateCache, 0)
  else if u.fetchInProgress then (u, .immediate u.accurateCache, 0)
  else ({ u with fetchInProgress := true }, .fetching, 1)

/-- Source `data && data.session && data.session.percent !== null`. -/
def usageDataValid (d : Option UsageData) : Bool :=
  match d with
  | some dd =>
      match dd.session with
      | some s => s.percent.isSome
      | none => false
  | none => false

/-- Source `getAccurateUsage` after the await (lines 54-65): validate, cache,
return the cache; on error return the stale cache; always clear
`fetchInProgress`. -/
def getAccurateUsageFinish (u : UsageTracker) (now : Nat)
    (outcome : Except Unit (Option UsageData)) : UsageTracker × Option UsageData :=
  match outcome with
  | .ok d =>
      if usageDataValid d then
        ({ accurateCache := d, accurateCacheTime := now, fetchInProgress := false }, d)
      else ({ u with fetchInProgress := false }, u.accurateCache)
  | .error _ => ({ u with fetchInProgress := false }, u.accurateCache)

/-! ## ContextTracker (src/lib/context-tracker.js)

The cache is per-`cwd`; the model below carries the entry for the one `cwd`
under consideration.  The JSONL estimate (`_getEstimateFromJsonl` plus the
active-file lookup) and the probe outcome (`_doAccurateContextFetch`) are
I/O and are passed in as parameters; the returned `probes` field counts
probe process spawns performed by the call (`this.pending` is empty between
sequential calls, so `_getAccurateContext` spawns exactly one probe per
miss).  Display strings are presentation-only and omitted. -/

structure AccData where
  tokens : Nat
  pct : Nat
  deriving Repr, DecidableEq

structure EstData where
  tokens : Nat
  pct : Nat
  deriving Repr, DecidableEq

structure CtxEntry where
  tokens : Nat
  pct : Nat
  timestamp : Nat
  accurate : Bool
  lastThreshold : Int
  deriving Repr, DecidableEq

structure CtxResult where
  tokens : Nat
  pct : Nat
  deriving Repr, DecidableEq

/-- Source `THRESHOLDS = [0, 20, 40, 60, 80, 95]`. -/
def THRESHOLDS : List Int := [0, 20, 40, 60, 80, 95]

/-- Source `_getThresholdBucket` (lines 139-144): the highest threshold at or below
`pct`, scanning from the top; 0 if none. -/
def getThresholdBucket (pct : Nat) : Int :=
  match THRESHOLDS.reverse.find? (fun t => (pct : Int) ≥ t) with
  | some t => t
  | none => 0

/-- Source `_getAccurateContext` (lines 150-164): if a fetch for this cwd is already
pending, return its (eventual) result without spawning; otherwise spawn one
probe.  `pending` maps each in-flight cwd to the value its probe resolves
with. -/
def getAccurateContextDedup (pending : List (String × Option AccData)) (cwd : String)
    (freshResult : Option AccData) : Option AccData × Nat :=
  match pending.find? (fun e => e.1 == cwd) with
  | some e => (e.2, 0)
  | none => (freshResult, 1)

/-- Source `this.accurateCacheTTL` of ContextTracker (1 minute). -/
def ctxAccurateCacheTTL : Nat := 60000

structure CtxCallResult where
  result : Option CtxResult
  cache : Option CtxEntry
  probes : Nat
  deriving Repr, DecidableEq

/-- The shared tail of `getContextForCwd` (lines 125-133): use the stale
accurate data if present, else the estimate; store it as inaccurate,
keeping the recorded threshold (or adopting the current one if the cache
was empty). -/
def ctxFallthrough (cache : Option CtxEntry) (now : Nat) (est : EstData)
    (currentThreshold : Int) (probes : Nat) : CtxCallResult :=
  match cache with
  | some c =>
      if c.accurate then
        { result := some ⟨c.tokens, c.pct⟩
          cache := some { tokens := c.tokens, pct := c.pct, timestamp := now,
                          accurate := false, lastThreshold := c.lastThreshold }
          probes := probes }
      else
        { result := some ⟨est.tokens, est.pct⟩
          cache := some { tokens := est.tokens, pct := est.pct, timestamp := now,
                          accurate := false, lastThreshold := c.lastThreshold }
          probes := probes }
  | none =>
      { result := some ⟨est.tokens, est.pct⟩
        cache := some { tokens := est.tokens, pct := est.pct, timestamp := now,
                        accurate := false, lastThreshold := currentThreshold }
        probes := probes }

/-- Source `getContextForCwd` (lines 73-134) for a non-empty cwd. -/
def getContextForCwd (cache : Option CtxEntry) (now : Nat)
    (estimate : Option EstData) (probe : Option AccData) : CtxCallResult :=
  match cache with
  | some c =>
      if c.accurate ∧ now - c.timestamp < ctxAccurateCacheTTL then
        { result := some ⟨c.tokens, c.pct⟩, cache := cache, probes := 0 }
      else ctxAfterFreshCheck cache now estimate probe
  | none => ctxAfterFreshCheck cache now estimate probe
where
  ctxAfterFreshCheck (cache : Option CtxEntry) (now : Nat)
      (estimate : Option EstData) (probe : Option AccData) : CtxCallResult :=
    match estimate with
    | none =>
        match probe with
        | some a =>
            { result := some ⟨a.tokens, a.pct⟩
              cache := some { tokens := a.tokens, pct := a.pct, timestamp := now,
                              accurate := true,
                              lastThreshold := getThresholdBucket a.pct }
              probes := 1 }
        | none => { result := none, cache := cache, probes := 1 }
    | some est =>
        if getThresholdBucket est.pct ≠
            (match cache with | some c => c.lastThreshold | none => (-1 : Int)) then
          match probe with
          | some a =>
              { result := some ⟨a.tokens, a.pct⟩
                cache := some { tokens := a.tokens, pct := a.pct, timestamp := now,
                                accurate := true,
                                lastThreshold := getThresholdBucket est.pct }
                probes := 1 }
          | none => ctxFallthrough cache now est (getThresholdBucket est.pct) 1
        else ctxFallthrough cache now est (getThresholdBucket est.pct) 0

/-! ## C6: single-flight deduplication -/

/-- C6: while a verified-usage fetch is in flight, `getAccurateUsage` does not
invoke the probe and returns the cached value (or `none`); a context fetch
for a cwd with a pending fetch returns the pending result without spawning;
and two overlapping usage requests start exactly one probe between them. -/
theorem single_flight_dedup (u : UsageTracker) (now : Nat)
    (pending : List (String × Option AccData)) (cwd : String)
    (e : String × Option AccData) (fresh : Option AccData)
    (hu : u.fetchInProgress = true)
    (hp : pending.find? (fun x => x.1 == cwd) = some e) :
    getAccurateUsageStart u now = (u, .immediate u.accurateCache, 0) ∧
    getAccurateContextDedup pending cwd fresh = (e.2, 0) ∧
    ∀ (v : UsageTracker) (t1 t2 : Nat), v.fetchInProgress = false →
      usageCacheFresh v t1 = false →
      (getAccurateUsageStart v t1).2.2 +
        (getAccurateUsageStart (getAccurateUsageStart v t1).1 t2).2.2 = 1 := by
  refine ⟨?_, ?_, ?_⟩
  · by_cases hf : usageCacheFresh u now <;> simp [getAccurateUsageStart, hf, hu]
  · simp [getAccurateContextDedup, hp]
  · intro v t1 t2 hv hf1
    simp only [getAccurateUsageStart, hf1, hv, Bool.false_eq_true, if_false]
    by_cases hf2 : usageCacheFresh { v with fetchInProgress := true } t2 <;>
      simp [hf2]

/-- Witness for C6. -/
theorem single_flight_dedup_witness :
    getAccurateUsageStart ⟨none, 0, true⟩ 5 = (⟨none, 0, true⟩, .immediate none, 0) ∧
    getAccurateContextDedup [("p", none)] "p" (some ⟨1, 2⟩) = (none, 0) ∧
    ∀ (v : UsageTracker) (t1 t2 : Nat), v.fetchInProgress = false →
      usageCacheFresh v t1 = false →
      (getAccurateUsageStart v t1).2.2 +
        (getAccurateUsageStart (getAccurateUsageStart v t1).1 t2).2.2 = 1 :=
  single_flight_dedup ⟨none, 0, true⟩ 5 [("p", none)] "p" ("p", none) (some ⟨1, 2⟩)
    (by decide) (by decide)

/-! ## C7: threshold gating -/

/-- C7 counterexample: with an empty cache, estimates 10% / 15% / 22% (fresh
probe succeeding, calls within the accurate TTL) do NOT behave as "no probe,
no probe, one probe at the 20% crossing": the very first call (estimate 10%)
already spawns a probe, because the empty-cache sentinel threshold (-1)
differs from the 0% bucket. -/
theorem ctx_threshold_gating_counterexample :
    ¬((getContextForCwd none 0 (some ⟨20000, 10⟩) (some ⟨20000, 10⟩)).probes = 0 ∧
      (getContextForCwd
        (getContextForCwd none 0 (some ⟨20000, 10⟩) (some ⟨20000, 10⟩)).cache
        1 (some ⟨30000, 15⟩) (some ⟨30000, 15⟩)).probes = 0 ∧
      (getContextForCwd
        (getContextForCwd
          (getContextForCwd none 0 (some ⟨20000, 10⟩) (some ⟨20000, 10⟩)).cache
          1 (some ⟨30000, 15⟩) (some ⟨30000, 15⟩)).cache
        2 (some ⟨44000, 22⟩) (some ⟨44000, 22⟩)).probes = 1) := by
  decide

/-- C7 (amended): starting from an empty cache, the estimate sequence
10% → 15% → 22% (succeeding probe, calls within the 60 s accurate TTL)
triggers exactly one verified probe, at the FIRST call (the initial bucket
assignment), and none at the later calls; and in general a call whose
estimate stays in the recorded threshold bucket spawns no probe. -/
theorem ctx_threshold_gating_amended (t1 t2 t3 : Nat)
    (est1 est2 est3 : EstData) (a1 a2 a3 : AccData)
    (h1 : est1.pct = 10) (h2 : est2.pct = 15) (h3 : est3.pct = 22)
    (h12 : t2 - t1 < 60000) (h13 : t3 - t1 < 60000) :
    (getContextForCwd none t1 (some est1) (some a1)).probes = 1 ∧
    (getContextForCwd
      (getContextForCwd none t1 (some est1) (some a1)).cache
      t2 (some est2) (some a2)).probes = 0 ∧
    (getContextForCwd
      (getContextForCwd
        (getContextForCwd none t1 (some est1) (some a1)).cache
        t2 (some est2) (some a2)).cache
      t3 (some est3) (some a3)).probes = 0 ∧
    ∀ (c : CtxEntry) (est : EstData) (now : Nat) (p : Option AccData),
      getThresholdBucket est.pct = c.lastThreshold →
      (getContextForCwd (some c) now (some est) p).probes = 0 := by
  have hc1 : getContextForCwd none t1 (some est1) (some a1) =
      { result := some ⟨a1.tokens, a1.pct⟩
        cache := some { tokens := a1.tokens, pct := a1.pct, timestamp := t1,
                        accurate := true, lastThreshold := 0 }
        probes := 1 } := by
    have hb : getThresholdBucket 10 = 0 := by decide
    simp [getContextForCwd, getContextForCwd.ctxAfterFreshCheck, h1, hb]
  have hc2 : getContextForCwd
      (getContextForCwd none t1 (some est1) (some a1)).cache
      t2 (some est2) (some a2) =
      { result := some ⟨a1.tokens, a1.pct⟩
        cache := some { tokens := a1.tokens, pct := a1.pct, timestamp := t1,
                        accurate := true, lastThreshold := 0 }
        probes := 0 } := by
    rw [hc1]
    simp only [getContextForCwd]
    rw [if_pos]
    exact ⟨trivial, by simpa [ctxAccurateCacheTTL] using h12⟩
  refine ⟨by rw [hc1], by rw [hc2], ?_, ?_⟩
  · rw [hc2]
    simp only [getContextForCwd]
    rw [if_pos]
    exact ⟨trivial, by simpa [ctxAccurateCacheTTL] using h13⟩
  · intro c est now p hbucket
    simp only [getContextForCwd]
    by_cases hfresh : c.accurate ∧ now - c.timestamp < ctxAccurateCacheTTL
    · rw [if_pos hfresh]
    · rw [if_neg hfresh]
      simp only [getContextForCwd.ctxAfterFreshCheck, hbucket, ne_eq,
        not_true_eq_false, if_false, ctxFallthrough]
      split <;> rfl

/-- Witness for C7 (amended) at concrete inputs. -/
theorem ctx_threshold_gating_amended_witness :
    (getContextForCwd none 0 (some ⟨20000, 10⟩) (some ⟨20000, 10⟩)).probes = 1 :=
  (ctx_threshold_gating_amended 0 1 2 ⟨20000, 10⟩ ⟨30000, 15⟩ ⟨44000, 22⟩
    ⟨20000, 10⟩ ⟨30000, 15⟩ ⟨44000, 22⟩ rfl rfl rfl (by decide) (by decide)).1

/-! ## Summarizer (src/lib/summarizer.js)

`summarize` cleans the prompt and returns it unchanged when it is at most
`MAX_LENGTH = 100` characters; otherwise it invokes the external `claude`
process (`_askClaude`), falling back to truncation when that fails, times
out, or resolves to an empty string.  The probe outcome is the parameter
`askOutcome` (`none` models rejection/timeout); the second component counts
external summarizer invocations. -/

/-- Source `[\x00-\x1F\x7F]`. -/
def isJsControl (c : Char) : Bool := c.toNat ≤ 0x1F || c.toNat = 0x7F

/-- JavaScript `String.prototype.trim` (both ends, `\s` class). -/
def trimJs (s : String) : String :=
  String.mk (((s.toList.dropWhile jsWhitespace).reverse.dropWhile jsWhitespace).reverse)

/-- The prompt clean-up shared by `Summarizer.summarize` (lines 19-23) and
`SessionManager._captureFirstInput` (lines 126-130): strip CSI escapes, OSC
sequences, control characters, then trim. -/
def cleanPrompt (s : String) : String :=
  trimJs (String.mk ((oscGo .norm (csiGo .norm s.toList)).filter (fun c => !isJsControl c)))

/-- Source `Summarizer.summarize` (lines 16-41). -/
def summarize (askOutcome : Option String) (prompt : String) : String × Nat :=
  let cleaned := cleanPrompt prompt
  if cleaned.length ≤ 100 then (cleaned, 0)
  else
    match askOutcome with
    | some out =>
        (if out ≠ "" then out else String.mk (cleaned.toList.take 100) ++ "...", 1)
    | none => (String.mk (cleaned.toList.take 100) ++ "...", 1)

/-! ## SessionManager (src/lib/session-manager.js)

Sessions live in a list keyed by `id` (modelling the `Map`; ids are unique
in any reachable state).  The ISO timestamp fields `createdAt` /
`lastActivity` are display-only strings and are omitted.  Each operation
returns an `OpResult`: the new state, the events emitted through the
`EventEmitter` (`update`, per-session `status`, `output`, `summary`), the
number of `pty.kill()` invocations, the number of external summarizer
spawns, and whether an exception escaped the manager boundary.  The
persistence `_save` calls are debounced display-state snapshots and carry no
events. -/

inductive MEvent where
  | update : MEvent
  | statusEv (sessionId : Nat) (status : String) : MEvent
  | outputEv (sessionId : Nat) (data : String) : MEvent
  | summaryEv (sessionId : Nat) (summary originalPrompt : String) : MEvent
  deriving Repr, DecidableEq

structure Session where
  id : Nat
  name : String
  cwd : String
  status : String
  summary : String
  originalPrompt : String
  archived : Bool
  ptyLive : Bool
  statusDetector : StatusDetector
  firstInputCaptured : Bool
  inputBuffer : String
  deriving Repr, DecidableEq

structure SessionManager where
  sessions : List Session
  cwd : String
  deriving Repr, DecidableEq

structure OpResult where
  state : SessionManager
  events : List MEvent
  kills : Nat
  summarizerCalls : Nat
  threw : Bool
  deriving Repr, DecidableEq

def noopResult (m : SessionManager) : OpResult :=
  { state := m, events := [], kills := 0, summarizerCalls := 0, threw := false }

def findSession (m : SessionManager) (sid : Nat) : Option Session :=
  m.sessions.find? (fun s => s.id == sid)

def replaceSession (m : SessionManager) (sid : Nat) (s' : Session) : SessionManager :=
  { m with sessions := m.sessions.map (fun t => if t.id == sid then s' else t) }

/-- Split a character list on a separator. -/
def splitOnChar (sep : Char) : List Char → List (List Char)
  | [] => [[]]
  | c :: r =>
      match splitOnChar sep r with
      | [] => [[c]]
      | g :: gs => if c = sep then [] :: g :: gs else (c :: g) :: gs

/-- Source `path.basename` restricted to its display use here: the last non-empty
`/`-separated segment. -/
def basename (p : String) : String :=
  match (((splitOnChar '/' p.toList).map String.mk).filter
      (fun seg => seg ≠ "")).getLast? with
  | some seg => seg
  | none => p

/-- The session literal built by `createSession` (lines 42-55). -/
def freshSession (id : Nat) (cwd : String) : Session :=
  { id := id
    name := basename cwd
    cwd := cwd
    status := "idle"
    summary := ""
    originalPrompt := ""
    archived := false
    ptyLive := false
    statusDetector := StatusDetector.init
    firstInputCaptured := false
    inputBuffer := "" }

/-- Source `_spawnPty` (lines 64-89): on success the session gets a live pty and
status `working` (no status event is emitted for this direct assignment);
`PtyHandler.spawn` has no try/catch in `src/lib/pty-handler.js` (and the
variant rethrows), so a spawn failure propagates as an exception and leaves
the session unchanged. -/
def spawnPty (s : Session) (spawnOk : Bool) : Except Unit Session :=
  if spawnOk then .ok { s with ptyLive := true, status := "working" } else .error ()

/-- Source `createSession` (lines 38-62): insert the fresh session, then spawn.  On
spawn failure the exception escapes `createSession`; the session is already
in the map (status `idle`, no pty) and no events have been emitted. -/
def createSession (m : SessionManager) (newId : Nat) (spawnOk : Bool) : OpResult :=
  match spawnPty (freshSession newId m.cwd) spawnOk with
  | .ok s' =>
      { state := { m with sessions := m.sessions ++ [s'] }
        events := [MEvent.update]
        kills := 0, summarizerCalls := 0, threw := false }
  | .error _ =>
      { state := { m with sessions := m.sessions ++ [freshSession newId m.cwd] }
        events := [], kills := 0, summarizerCalls := 0, threw := true }

/-- The `onStatusChange` handler registered in `_spawnPty` (lines 80-84):
store the detector's new status on the session and emit a status event. -/
def routeDetector (s : Session) (r : StatusDetector × Option String) :
    Session × List MEvent :=
  match r.2 with
  | some st => ({ s with statusDetector := r.1, status := st }, [MEvent.statusEv s.id st])
  | none => ({ s with statusDetector := r.1 }, [])

/-- Source `_captureFirstInput` (lines 123-145). -/
def captureFirstInput (s : Session) (input : String) (askOutcome : Option String) :
    Session × List MEvent × Nat :=
  if cleanPrompt input = "" then (s, [], 0)
  else
    ({ s with originalPrompt := cleanPrompt input
              summary := (summarize askOutcome (cleanPrompt input)).1 },
     [MEvent.summaryEv s.id (summarize askOutcome (cleanPrompt input)).1 (cleanPrompt input),
      MEvent.update],
     (summarize askOutcome (cleanPrompt input)).2)

/-- Source `sendInput` (lines 91-121): unknown ids are no-ops; a missing pty is
lazily respawned (a spawn failure propagates); until the first
newline-terminated input, bytes accumulate in `inputBuffer` and the capture
runs once on the newline.  The summary/update events of the asynchronous
`_captureFirstInput` resolve on a microtask after the synchronous input
routing, hence they are ordered after the detector's status event. -/
def sendInput (m : SessionManager) (sid : Nat) (data : String) (spawnOk : Bool)
    (askOutcome : Option String) : OpResult :=
  match findSession m sid with
  | none => noopResult m
  | some s =>
      match (if s.ptyLive then Except.ok s else spawnPty s spawnOk) with
      | .error _ => { state := m, events := [], kills := 0, summarizerCalls := 0, threw := true }
      | .ok s1 =>
          let cap :
              Session × List MEvent × Nat :=
            if s1.firstInputCaptured then (s1, [], 0)
            else
              if data.toList.contains '\r' || data.toList.contains '\n' then
                captureFirstInput
                  { s1 with firstInputCaptured := true, inputBuffer := "" }
                  (s1.inputBuffer ++ data) askOutcome
              else ({ s1 with inputBuffer := s1.inputBuffer ++ data }, [], 0)
          let rd := routeDetector cap.1 (cap.1.statusDetector.onInput data)
          { state := replaceSession m sid rd.1
            events := rd.2 ++ cap.2.1
            kills := 0, summarizerCalls := cap.2.2, threw := false }

/-- Source `archiveSession` (lines 147-160): kill a live pty, clear it, set
`archived` and status `idle` (direct assignment, no status event), emit one
update event. -/
def archiveSession (m : SessionManager) (sid : Nat) : OpResult :=
  match findSession m sid with
  | none => noopResult m
  | some s =>
      { state := replaceSession m sid
          { s with ptyLive := false, archived := true, status := "idle" }
        events := [MEvent.update]
        kills := if s.ptyLive then 1 else 0
        summarizerCalls := 0, threw := false }

/-- Source `unarchiveSession` (lines 162-170): deliberately does not respawn. -/
def unarchiveSession (m : SessionManager) (sid : Nat) : OpResult :=
  match findSession m sid with
  | none => noopResult m
  | some s =>
      { state := replaceSession m sid { s with archived := false }
        events := [MEvent.update]
        kills := 0, summarizerCalls := 0, threw := false }

/-- Source `renameSession` (lines 172-179). -/
def renameSession (m : SessionManager) (sid : Nat) (name : String) : OpResult :=
  match findSession m sid with
  | none => noopResult m
  | some s =>
      { state := replaceSession m sid { s with name := name }
        events := [MEvent.update]
        kills := 0, summarizerCalls := 0, threw := false }

/-- Source `deleteSession` (lines 188-199). -/
def deleteSession (m : SessionManager) (sid : Nat) : OpResult :=
  match findSession m sid with
  | none => noopResult m
  | some s =>
      { state := { m with sessions := m.sessions.filter (fun t => !(t.id == sid)) }
        events := [MEvent.update]
        kills := if s.ptyLive then 1 else 0
        summarizerCalls := 0, threw := false }

/-- Source `resizeSession` (lines 181-186): forwards to `pty.resize` only; no state
change, no events (and no call into the detector). -/
def resizeSession (m : SessionManager) (_sid : Nat) (_cols _rows : Nat) : OpResult :=
  noopResult m

/-- The `pty.onExit` handler registered in `_spawnPty` (lines 73-78): clear
the pty, set status `idle` and emit a status event UNCONDITIONALLY (even
when the status is already `idle`), then an update event. -/
def ptyExit (m : SessionManager) (sid : Nat) : OpResult :=
  match findSession m sid with
  | none => noopResult m
  | some s =>
      { state := replaceSession m sid { s with ptyLive := false, status := "idle" }
        events := [MEvent.statusEv sid "idle", MEvent.update]
        kills := 0, summarizerCalls := 0, threw := false }

/-- The `pty.onData` handler registered in `_spawnPty` (lines 67-71): feed
the detector (whose status event, if any, is emitted synchronously inside),
then emit the raw output event. -/
def managerOnOutput (m : SessionManager) (sid : Nat) (data : String) (now : Nat) : OpResult :=
  match findSession m sid with
  | none => noopResult m
  | some s =>
      { state := replaceSession m sid (routeDetector s (s.statusDetector.onOutput data now)).1
        events := (routeDetector s (s.statusDetector.onOutput data now)).2 ++
          [MEvent.outputEv sid data]
        kills := 0, summarizerCalls := 0, threw := false }

/-- One session's share of `_tick`. -/
def tickOne (now : Nat) (s : Session) : Session × List MEvent :=
  routeDetector s (s.statusDetector.tick now)

/-- Source `_tick` (lines 229-235): tick every session's detector. -/
def managerTick (m : SessionManager) (now : Nat) : OpResult :=
  { state := { m with sessions := m.sessions.map (fun s => (tickOne now s).1) }
    events := (m.sessions.map (fun s => (tickOne now s).2)).flatten
    kills := 0, summarizerCalls := 0, threw := false }

/-- The detector's 150 ms debounce timer firing for one session. -/
def managerTimeoutFire (m : SessionManager) (sid : Nat) : OpResult :=
  match findSession m sid with
  | none => noopResult m
  | some s =>
      { state := replaceSession m sid (routeDetector s s.statusDetector.timeoutFire).1
        events := (routeDetector s s.statusDetector.timeoutFire).2
        kills := 0, summarizerCalls := 0, threw := false }

/-- A saved record as restored by `loadSessions` (lines 23-36). -/
structure SavedSession where
  id : Nat
  name : String
  cwd : String
  summary : String
  originalPrompt : String
  archived : Bool
  deriving Repr, DecidableEq

def restoreSession (s : SavedSession) : Session :=
  { id := s.id
    name := s.name
    cwd := s.cwd
    status := "idle"
    summary := s.summary
    originalPrompt := s.originalPrompt
    archived := s.archived
    ptyLive := false
    statusDetector := StatusDetector.init
    firstInputCaptured := s.summary ≠ ""
    inputBuffer := "" }

/-- Source `loadSessions` (lines 23-36): restore saved sessions as idle, no pty. -/
def loadSessions (m : SessionManager) (saved : List SavedSession) : OpResult :=
  { state := { m with sessions := m.sessions ++ saved.map restoreSession }
    events := [MEvent.update]
    kills := 0, summarizerCalls := 0, threw := false }

/-- Source `killAll` (lines 220-227): kill every live pty; the session objects keep
their (now dead) pty references, so no session state changes and no events
fire. -/
def killAll (m : SessionManager) : OpResult :=
  { state := m, events := []
    kills := (m.sessions.filter (fun s => s.ptyLive)).length
    summarizerCalls := 0, threw := false }

/-! ## Lemmas about session lookup and replacement -/

theorem findSession_id (m : SessionManager) (sid : Nat) (s : Session)
    (h : findSession m sid = some s) : s.id = sid := by
  unfold findSession at h
  have hp := @List.find?_some Session (fun t => t.id == sid) s m.sessions h
  exact beq_iff_eq.mp hp

theorem find_replace_aux (l : List Session) (sid : Nat) (s s' : Session)
    (h : l.find? (fun t => t.id == sid) = some s) (hid : s'.id = sid) :
    (l.map (fun t => if t.id == sid then s' else t)).find? (fun t => t.id == sid) =
      some s' := by
  have hps' : (s'.id == sid) = true := beq_iff_eq.mpr hid
  induction l with
  | nil => simp at h
  | cons a l ih =>
      by_cases ha : (a.id == sid) = true
      · rw [List.map_cons, if_pos ha]
        simp [List.find?_cons, hps']
      · have ha' : (a.id == sid) = false := by
          cases hb : (a.id == sid) with
          | true => exact absurd hb ha
          | false => rfl
        simp only [List.find?_cons, ha', cond_false] at h
        rw [List.map_cons, if_neg ha]
        simp only [List.find?_cons, ha', cond_false]
        exact ih h

theorem findSession_replace (m : SessionManager) (sid : Nat) (s s' : Session)
    (h : findSession m sid = some s) (hid : s'.id = sid) :
    findSession (replaceSession m sid s') sid = some s' :=
  find_replace_aux m.sessions sid s s' h hid

theorem replace_map_aux (l : List Session) (sid : Nat) (s' : Session) (hid : s'.id = sid) :
    (l.map (fun t => if t.id == sid then s' else t)).map
        (fun t => if t.id == sid then s' else t) =
      l.map (fun t => if t.id == sid then s' else t) := by
  have hps' : (s'.id == sid) = true := beq_iff_eq.mpr hid
  induction l with
  | nil => rfl
  | cons a l ih =>
      simp only [List.map_cons, ih]
      congr 1
      by_cases ha : (a.id == sid) = true
      · rw [if_pos ha, if_pos hps']
      · rw [if_neg ha, if_neg ha]

theorem replace_twice (m : SessionManager) (sid : Nat) (s' : Session) (hid : s'.id = sid) :
    replaceSession (replaceSession m sid s') sid s' = replaceSession m sid s' := by
  unfold replaceSession
  simp only
  congr 1
  exact replace_map_aux m.sessions sid s' hid

theorem routeDetector_keeps (s : Session) (r : StatusDetector × Option String) :
    (routeDetector s r).1.id = s.id ∧
    (routeDetector s r).1.originalPrompt = s.originalPrompt ∧
    (routeDetector s r).1.summary = s.summary ∧
    (routeDetector s r).1.firstInputCaptured = s.firstInputCaptured := by
  obtain ⟨d, ev⟩ := r
  cases ev <;> exact ⟨rfl, rfl, rfl, rfl⟩

/-! ## C4: spawn-failure behaviour of createSession -/

/-- C4 counterexample: with a failing spawn, `createSession` throws past the
manager boundary (refuting "the exception is never thrown"), emits no error
event, and leaves the session listed with status `idle` — not `error`. -/
theorem create_spawn_failure_counterexample :
    (createSession { sessions := [], cwd := "/w" } 1 false).threw = true ∧
    (createSession { sessions := [], cwd := "/w" } 1 false).events = [] ∧
    (findSession (createSession { sessions := [], cwd := "/w" } 1 false).state 1).map
      Session.status = some "idle" := by
  decide

/-- C4 (amended): when the PTY spawn fails, `createSession` propagates the
exception to its caller; the session remains listed — inert, with status
`idle` (not `error`), no live pty — and no events (in particular no error
event) are emitted. -/
theorem create_spawn_failure_amended (m : SessionManager) (nid : Nat) :
    createSession m nid false =
      { state := { m with sessions := m.sessions ++ [freshSession nid m.cwd] }
        events := [], kills := 0, summarizerCalls := 0, threw := true } ∧
    (freshSession nid m.cwd).status = "idle" ∧
    (freshSession nid m.cwd).ptyLive = false :=
  ⟨rfl, rfl, rfl⟩

/-! ## C9: archiveSession idempotence -/

/-- C9 counterexample: the second `archiveSession` call on the same id emits
another `update` event (and calls `_save` again), so the two-call event
stream is not that of a single call. -/
theorem archive_second_call_emits_counterexample :
    (archiveSession
      (archiveSession (createSession { sessions := [], cwd := "/w" } 1 true).state 1).state
      1).events = [MEvent.update] ∧
    ¬((archiveSession
      (archiveSession (createSession { sessions := [], cwd := "/w" } 1 true).state 1).state
      1).events = []) := by
  decide

/-- C9 (amended): a second `archiveSession` on the same id leaves the state
exactly as after the first call and performs no further `pty.kill()` (so no
duplicate kill error is possible), but it does emit one more `update`
event. -/
theorem archive_idempotent_amended (m : SessionManager) (sid : Nat) (s : Session)
    (hf : findSession m sid = some s) :
    (archiveSession (archiveSession m sid).state sid).state =
      (archiveSession m sid).state ∧
    (archiveSession (archiveSession m sid).state sid).kills = 0 ∧
    (archiveSession (archiveSession m sid).state sid).events = [MEvent.update] := by
  have hid : s.id = sid := findSession_id m sid s hf
  have h1 : archiveSession m sid =
      { state := replaceSession m sid
          { s with ptyLive := false, archived := true, status := "idle" }
        events := [MEvent.update]
        kills := if s.ptyLive then 1 else 0
        summarizerCalls := 0, threw := false } := by
    unfold archiveSession
    rw [hf]
  have hid' : (Session.mk s.id s.name s.cwd "idle" s.summary s.originalPrompt
      true false s.statusDetector s.firstInputCaptured s.inputBuffer).id = sid := hid
  have hf2 : findSession
      (replaceSession m sid { s with ptyLive := false, archived := true, status := "idle" })
      sid = some { s with ptyLive := false, archived := true, status := "idle" } :=
    findSession_replace m sid s _ hf hid'
  have h2 : archiveSession
      (replaceSession m sid { s with ptyLive := false, archived := true, status := "idle" })
      sid =
      { state := replaceSession
            (replaceSession m sid
              { s with ptyLive := false, archived := true, status := "idle" })
            sid { s with ptyLive := false, archived := true, status := "idle" }
        events := [MEvent.update]
        kills := 0
        summarizerCalls := 0, threw := false } := by
    unfold archiveSession
    rw [hf2]
    rfl
  rw [h1]
  refine ⟨?_, ?_, ?_⟩
  · show (archiveSession
      (replaceSession m sid { s with ptyLive := false, archived := true, status := "idle" })
      sid).state = _
    rw [h2]
    exact replace_twice m sid _ hid'
  · show (archiveSession
      (replaceSession m sid { s with ptyLive := false, archived := true, status := "idle" })
      sid).kills = 0
    rw [h2]
  · show (archiveSession
      (replaceSession m sid { s with ptyLive := false, archived := true, status := "idle" })
      sid).events = [MEvent.update]
    rw [h2]

/-- Witness for C9 (amended). -/
theorem archive_idempotent_amended_witness :
    (archiveSession
      (archiveSession (createSession { sessions := [], cwd := "/w" } 2 true).state 2).state
      2).state =
      (archiveSession (createSession { sessions := [], cwd := "/w" } 2 true).state 2).state ∧
    (archiveSession
      (archiveSession (createSession { sessions := [], cwd := "/w" } 2 true).state 2).state
      2).kills = 0 ∧
    (archiveSession
      (archiveSession (createSession { sessions := [], cwd := "/w" } 2 true).state 2).state
      2).events = [MEvent.update] :=
  archive_idempotent_amended
    (createSession { sessions := [], cwd := "/w" } 2 true).state 2
    { freshSession 2 "/w" with ptyLive := true, status := "working" }
    (by decide)


/-! ## C8: first-input capture -/

/-- C8: with the session's first input still uncaptured, sending
`"fix the bug\n"` stores `originalPrompt = summary = "fix the bug"` without
any external summarizer invocation (the cleaned text is 11 ≤ 100 characters)
and marks the capture done; and once `firstInputCaptured` is set, no later
`sendInput` ever changes `summary` or `originalPrompt` again. -/
theorem first_input_capture (m : SessionManager) (sid : Nat) (s : Session)
    (ok : Bool) (oracle : Option String)
    (hf : findSession m sid = some s)
    (hpty : s.ptyLive = true)
    (hcap : s.firstInputCaptured = false)
    (hib : s.inputBuffer = "") :
    (∃ s' : Session,
      findSession (sendInput m sid "fix the bug\n" ok oracle).state sid = some s' ∧
      s'.originalPrompt = "fix the bug" ∧
      s'.summary = "fix the bug" ∧
      s'.firstInputCaptured = true) ∧
    (sendInput m sid "fix the bug\n" ok oracle).summarizerCalls = 0 ∧
    ∀ (m₂ : SessionManager) (sid₂ : Nat) (s₂ : Session) (data : String) (ok₂ : Bool)
      (or₂ : Option String) (s₂' : Session),
      findSession m₂ sid₂ = some s₂ → s₂.firstInputCaptured = true →
      findSession (sendInput m₂ sid₂ data ok₂ or₂).state sid₂ = some s₂' →
      s₂'.originalPrompt = s₂.originalPrompt ∧ s₂'.summary = s₂.summary := by
  have hid : s.id = sid := findSession_id m sid s hf
  have hnl : ("fix the bug\n".toList.contains '\r' ||
      "fix the bug\n".toList.contains '\n') = true := by decide
  have hclean : cleanPrompt "fix the bug\n" = "fix the bug" := by decide
  have hcln2 : cleanPrompt "fix the bug" = "fix the bug" := by decide
  have hnz : ¬(cleanPrompt "fix the bug\n" = "") := by decide
  have hsum : summarize oracle "fix the bug" = ("fix the bug", 0) := by
    unfold summarize
    rw [hcln2]
    rfl
  have hcapArgs : ∀ t : Session, captureFirstInput t ("" ++ "fix the bug\n") oracle =
      ({ t with originalPrompt := "fix the bug", summary := "fix the bug" },
       [MEvent.summaryEv t.id "fix the bug" "fix the bug", MEvent.update], 0) := by
    intro t
    unfold captureFirstInput
    rw [String.empty_append, if_neg hnz, hclean, hsum]
  have hsend : sendInput m sid "fix the bug\n" ok oracle =
      { state := replaceSession m sid
          (routeDetector
            { s with firstInputCaptured := true, inputBuffer := ""
                     originalPrompt := "fix the bug", summary := "fix the bug" }
            (StatusDetector.onInput s.statusDetector "fix the bug\n")).1
        events := (routeDetector
            { s with firstInputCaptured := true, inputBuffer := ""
                     originalPrompt := "fix the bug", summary := "fix the bug" }
            (StatusDetector.onInput s.statusDetector "fix the bug\n")).2 ++
          [MEvent.summaryEv s.id "fix the bug" "fix the bug", MEvent.update]
        kills := 0, summarizerCalls := 0, threw := false } := by
    simp only [sendInput, hf, hpty, if_true, hcap, Bool.false_eq_true, if_false,
      hnl, hib, hcapArgs]
  refine ⟨?_, ?_, ?_⟩
  · refine ⟨(routeDetector
        { s with firstInputCaptured := true, inputBuffer := ""
                 originalPrompt := "fix the bug", summary := "fix the bug" }
        (StatusDetector.onInput s.statusDetector "fix the bug\n")).1, ?_, ?_, ?_, ?_⟩
    · rw [hsend]
      exact findSession_replace m sid s _ hf
        ((routeDetector_keeps _ _).1.trans hid)
    · exact (routeDetector_keeps _ _).2.1
    · exact (routeDetector_keeps _ _).2.2.1
    · exact (routeDetector_keeps _ _).2.2.2
  · rw [hsend]
  · intro m₂ sid₂ s₂ data ok₂ or₂ s₂' hf₂ hcap₂ hfind₂
    have hid₂ : s₂.id = sid₂ := findSession_id m₂ sid₂ s₂ hf₂
    by_cases hp₂ : s₂.ptyLive = true
    · have hsend₂ : sendInput m₂ sid₂ data ok₂ or₂ =
          { state := replaceSession m₂ sid₂
              (routeDetector s₂ (StatusDetector.onInput s₂.statusDetector data)).1
            events := (routeDetector s₂ (StatusDetector.onInput s₂.statusDetector data)).2 ++ []
            kills := 0, summarizerCalls := 0, threw := false } := by
        simp only [sendInput, hf₂, hp₂, if_true, hcap₂]
      rw [hsend₂] at hfind₂
      have hfr : findSession (replaceSession m₂ sid₂
          (routeDetector s₂ (StatusDetector.onInput s₂.statusDetector data)).1) sid₂ =
          some (routeDetector s₂ (StatusDetector.onInput s₂.statusDetector data)).1 :=
        findSession_replace m₂ sid₂ s₂ _ hf₂ ((routeDetector_keeps _ _).1.trans hid₂)
      rw [hfr] at hfind₂
      cases hfind₂
      exact ⟨(routeDetector_keeps _ _).2.1, (routeDetector_keeps _ _).2.2.1⟩
    · have hp₂' : s₂.ptyLive = false := by
        cases hb : s₂.ptyLive with
        | true => exact absurd hb hp₂
        | false => rfl
      cases ok₂ with
      | false =>
          have hsend₂ : sendInput m₂ sid₂ data false or₂ =
              { state := m₂, events := [], kills := 0
                summarizerCalls := 0, threw := true } := by
            simp only [sendInput, hf₂, hp₂', Bool.false_eq_true, if_false, spawnPty]
          rw [hsend₂] at hfind₂
          rw [hf₂] at hfind₂
          cases hfind₂
          exact ⟨rfl, rfl⟩
      | true =>
          have hsend₂ : sendInput m₂ sid₂ data true or₂ =
              { state := replaceSession m₂ sid₂
                  (routeDetector { s₂ with ptyLive := true, status := "working" }
                    (StatusDetector.onInput s₂.statusDetector data)).1
                events := (routeDetector { s₂ with ptyLive := true, status := "working" }
                  (StatusDetector.onInput s₂.statusDetector data)).2 ++ []
                kills := 0, summarizerCalls := 0, threw := false } := by
            simp only [sendInput, hf₂, hp₂', Bool.false_eq_true, if_false, spawnPty,
              if_true, hcap₂]
          rw [hsend₂] at hfind₂
          have hfr : findSession (replaceSession m₂ sid₂
              (routeDetector { s₂ with ptyLive := true, status := "working" }
                (StatusDetector.onInput s₂.statusDetector data)).1) sid₂ =
              some (routeDetector { s₂ with ptyLive := true, status := "working" }
                (StatusDetector.onInput s₂.statusDetector data)).1 :=
            findSession_replace m₂ sid₂ s₂ _ hf₂
              ((routeDetector_keeps _ _).1.trans hid₂)
          rw [hfr] at hfind₂
          cases hfind₂
          exact ⟨(routeDetector_keeps _ _).2.1, (routeDetector_keeps _ _).2.2.1⟩

/-- Witness for C8 at a concrete manager state. -/
theorem first_input_capture_witness :
    (∃ s' : Session,
      findSession (sendInput
        (createSession { sessions := [], cwd := "/w" } 3 true).state
        3 "fix the bug\n" true none).state 3 = some s' ∧
      s'.originalPrompt = "fix the bug" ∧
      s'.summary = "fix the bug" ∧
      s'.firstInputCaptured = true) ∧
    (sendInput (createSession { sessions := [], cwd := "/w" } 3 true).state
      3 "fix the bug\n" true none).summarizerCalls = 0 ∧
    ∀ (m₂ : SessionManager) (sid₂ : Nat) (s₂ : Session) (data : String) (ok₂ : Bool)
      (or₂ : Option String) (s₂' : Session),
      findSession m₂ sid₂ = some s₂ → s₂.firstInputCaptured = true →
      findSession (sendInput m₂ sid₂ data ok₂ or₂).state sid₂ = some s₂' →
      s₂'.originalPrompt = s₂.originalPrompt ∧ s₂'.summary = s₂.summary :=
  first_input_capture (createSession { sessions := [], cwd := "/w" } 3 true).state 3
    { freshSession 3 "/w" with ptyLive := true, status := "working" } true none
    (by decide) (by decide) (by decide) (by decide)

/-! ## The status invariant (C1, C10)

`okStatus` is the set of statuses the code ever assigns; `fiveStatus` is the
spec's five-value enum.  `DOp` enumerates the StatusDetector entry points,
`MOp` the SessionManager operations (including the pty callbacks and the
detector's debounce timer). -/

def okStatus (x : String) : Prop :=
  x = "idle" ∨ x = "working" ∨ x = "waiting" ∨ x = "draft"

instance (x : String) : Decidable (okStatus x) := by
  unfold okStatus
  infer_instance

def fiveStatus (x : String) : Prop := okStatus x ∨ x = "error"

inductive DOp where
  | out (data : String) (now : Nat) : DOp
  | inp (data : String) : DOp
  | tk (now : Nat) : DOp
  | rsz (now : Nat) : DOp
  | fire : DOp
  | rst : DOp

/-- One StatusDetector entry point (`reset` emits no notification). -/
def dstep (d : StatusDetector) : DOp → StatusDetector × Option String
  | .out data now => d.onOutput data now
  | .inp data => d.onInput data
  | .tk now => d.tick now
  | .rsz now => d.onResize now
  | .fire => d.timeoutFire
  | .rst => (d.reset, none)

theorem onOutput_event (d : StatusDetector) (data : String) (now : Nat) (s : String)
    (h : (d.onOutput data now).2 = some s) : okStatus s ∧ s ≠ d.status := by
  unfold StatusDetector.onOutput at h
  try dsimp only at h
  repeat' split at h
  all_goals try (cases h)
  all_goals obtain ⟨rfl, hne⟩ := updateStatus_snd _ _ _ h
  all_goals exact ⟨by decide, hne⟩

theorem onOutput_status_ok (d : StatusDetector) (data : String) (now : Nat)
    (h : okStatus d.status) : okStatus (d.onOutput data now).1.status := by
  unfold StatusDetector.onOutput
  try dsimp only
  repeat' split
  all_goals try (rw [updateStatus_fst]; dsimp only; decide)
  all_goals dsimp only
  all_goals exact h

theorem onInput_event (d : StatusDetector) (data : String) (s : String)
    (h : (d.onInput data).2 = some s) : okStatus s ∧ s ≠ d.status := by
  unfold StatusDetector.onInput at h
  try dsimp only at h
  repeat' split at h
  all_goals try (cases h)
  all_goals obtain ⟨rfl, hne⟩ := updateStatus_snd _ _ _ h
  all_goals exact ⟨by decide, hne⟩

theorem onInput_status_ok (d : StatusDetector) (data : String)
    (h : okStatus d.status) : okStatus (d.onInput data).1.status := by
  unfold StatusDetector.onInput
  try dsimp only
  repeat' split
  all_goals try (rw [updateStatus_fst]; dsimp only; decide)
  all_goals dsimp only
  all_goals exact h

theorem tick_event (d : StatusDetector) (now : Nat) (s : String)
    (h : (d.tick now).2 = some s) : okStatus s ∧ s ≠ d.status := by
  unfold StatusDetector.tick at h
  try dsimp only at h
  repeat' split at h
  all_goals try (cases h)
  all_goals obtain ⟨rfl, hne⟩ := updateStatus_snd _ _ _ h
  all_goals exact ⟨by decide, hne⟩

theorem tick_status_ok (d : StatusDetector) (now : Nat)
    (h : okStatus d.status) : okStatus (d.tick now).1.status := by
  unfold StatusDetector.tick
  try dsimp only
  repeat' split
  all_goals try (rw [updateStatus_fst]; dsimp only; decide)
  all_goals dsimp only
  all_goals exact h

theorem onResize_event (d : StatusDetector) (now : Nat) (s : String)
    (h : (d.onResize now).2 = some s) : okStatus s ∧ s ≠ d.status := by
  unfold StatusDetector.onResize at h
  try dsimp only at h
  repeat' split at h
  all_goals try (cases h)
  all_goals obtain ⟨rfl, hne⟩ := updateStatus_snd _ _ _ h
  all_goals exact ⟨by decide, hne⟩

theorem onResize_status_ok (d : StatusDetector) (now : Nat)
    (h : okStatus d.status) : okStatus (d.onResize now).1.status := by
  unfold StatusDetector.onResize
  try dsimp only
  repeat' split
  all_goals try (rw [updateStatus_fst]; dsimp only; decide)
  all_goals dsimp only
  all_goals exact h

theorem timeoutFire_event (d : StatusDetector) (s : String)
    (h : d.timeoutFire.2 = some s) : okStatus s ∧ s ≠ d.status := by
  unfold StatusDetector.timeoutFire at h
  try dsimp only at h
  repeat' split at h
  all_goals try (cases h)
  all_goals obtain ⟨rfl, hne⟩ := updateStatus_snd _ _ _ h
  all_goals exact ⟨by decide, hne⟩

theorem timeoutFire_status_ok (d : StatusDetector)
    (h : okStatus d.status) : okStatus d.timeoutFire.1.status := by
  unfold StatusDetector.timeoutFire
  try dsimp only
  repeat' split
  all_goals try (rw [updateStatus_fst]; dsimp only; decide)
  all_goals dsimp only
  all_goals exact h

/-- Every detector notification carries one of the four assigned statuses and
differs from the detector's status at the time. -/
theorem dstep_event (d : StatusDetector) (op : DOp) (s : String)
    (h : (dstep d op).2 = some s) : okStatus s ∧ s ≠ d.status := by
  cases op with
  | out data now => exact onOutput_event d data now s h
  | inp data => exact onInput_event d data s h
  | tk now => exact tick_event d now s h
  | rsz now => exact onResize_event d now s h
  | fire => exact timeoutFire_event d s h
  | rst => cases h

theorem dstep_status_ok (d : StatusDetector) (op : DOp)
    (h : okStatus d.status) : okStatus (dstep d op).1.status := by
  cases op with
  | out data now => exact onOutput_status_ok d data now h
  | inp data => exact onInput_status_ok d data h
  | tk now => exact tick_status_ok d now h
  | rsz now => exact onResize_status_ok d now h
  | fire => exact timeoutFire_status_ok d h
  | rst => exact Or.inl rfl

/-! ## Manager-level invariant -/

def sessionOk (s : Session) : Prop :=
  okStatus s.status ∧ okStatus s.statusDetector.status

def mOk (m : SessionManager) : Prop := ∀ s ∈ m.sessions, sessionOk s

inductive MOp where
  | create (nid : Nat) (ok : Bool) : MOp
  | load (saved : List SavedSession) : MOp
  | input (sid : Nat) (data : String) (ok : Bool) (oracle : Option String) : MOp
  | output (sid : Nat) (data : String) (now : Nat) : MOp
  | tick (now : Nat) : MOp
  | exitOp (sid : Nat) : MOp
  | archive (sid : Nat) : MOp
  | unarchive (sid : Nat) : MOp
  | rename (sid : Nat) (name : String) : MOp
  | delete (sid : Nat) : MOp
  | resize (sid : Nat) (cols rows : Nat) : MOp
  | fire (sid : Nat) : MOp
  | killAllOp : MOp

/-- One SessionManager operation (including the pty `onData`/`onExit`
callbacks and the detector's debounce timer). -/
def mstep (m : SessionManager) : MOp → OpResult
  | .create nid ok => createSession m nid ok
  | .load saved => loadSessions m saved
  | .input sid data ok oracle => sendInput m sid data ok oracle
  | .output sid data now => managerOnOutput m sid data now
  | .tick now => managerTick m now
  | .exitOp sid => ptyExit m sid
  | .archive sid => archiveSession m sid
  | .unarchive sid => unarchiveSession m sid
  | .rename sid name => renameSession m sid name
  | .delete sid => deleteSession m sid
  | .resize sid c r => resizeSession m sid c r
  | .fire sid => managerTimeoutFire m sid
  | .killAllOp => killAll m

def runOps (m : SessionManager) (ops : List MOp) : SessionManager :=
  ops.foldl (fun mm op => (mstep mm op).state) m

theorem route_ok (s : Session) (d' : StatusDetector) (ev : Option String)
    (h1 : okStatus d'.status)
    (h2 : ∀ st, ev = some st → okStatus st)
    (hs : okStatus s.status) :
    sessionOk (routeDetector s (d', ev)).1 := by
  cases ev with
  | none => exact ⟨hs, h1⟩
  | some st => exact ⟨h2 st rfl, h1⟩

theorem mOk_replace (m : SessionManager) (sid : Nat) (s' : Session)
    (hm : mOk m) (hs' : sessionOk s') : mOk (replaceSession m sid s') := by
  intro t ht
  unfold replaceSession at ht
  simp only [List.mem_map] at ht
  obtain ⟨a, ha, rfl⟩ := ht
  by_cases hb : (a.id == sid) = true
  · rw [if_pos hb]; exact hs'
  · rw [if_neg hb]; exact hm a ha

theorem findSession_mem (m : SessionManager) (sid : Nat) (s : Session)
    (h : findSession m sid = some s) : s ∈ m.sessions := by
  unfold findSession at h
  exact List.mem_of_find?_eq_some h

theorem captureFirstInput_keeps (s : Session) (i : String) (o : Option String) :
    (captureFirstInput s i o).1.status = s.status ∧
    (captureFirstInput s i o).1.statusDetector = s.statusDetector := by
  unfold captureFirstInput
  split <;> exact ⟨rfl, rfl⟩

theorem spawnPty_ok (s s1 : Session) (ok : Bool) (h : spawnPty s ok = .ok s1)
    (hs : sessionOk s) : sessionOk s1 := by
  unfold spawnPty at h
  split at h
  · cases h; exact ⟨Or.inr (Or.inl rfl), hs.2⟩
  · cases h

theorem mstep_ok (m : SessionManager) (op : MOp) (hm : mOk m) :
    mOk (mstep m op).state := by
  cases op with
  | create nid ok =>
      show mOk (createSession m nid ok).state
      unfold createSession
      cases hsp : spawnPty (freshSession nid m.cwd) ok with
      | ok s' =>
          simp only [hsp]
          try dsimp only
          intro t ht
          simp only [List.mem_append, List.mem_singleton] at ht
          cases ht with
          | inl hin => exact hm t hin
          | inr heq =>
              subst heq
              exact spawnPty_ok _ _ ok hsp ⟨Or.inl rfl, Or.inl rfl⟩
      | error e =>
          simp only [hsp]
          try dsimp only
          intro t ht
          simp only [List.mem_append, List.mem_singleton] at ht
          cases ht with
          | inl hin => exact hm t hin
          | inr heq => subst heq; exact ⟨Or.inl rfl, Or.inl rfl⟩
  | load saved =>
      show mOk (loadSessions m saved).state
      intro t ht
      simp only [loadSessions] at ht
      simp only [List.mem_append, List.mem_map] at ht
      cases ht with
      | inl hin => exact hm t hin
      | inr hr =>
          obtain ⟨a, _, rfl⟩ := hr
          exact ⟨Or.inl rfl, Or.inl rfl⟩
  | input sid data ok oracle =>
      show mOk (sendInput m sid data ok oracle).state
      unfold sendInput
      cases hfind : findSession m sid with
      | none => simp only [hfind]; exact hm
      | some s =>
          simp only [hfind]
          try dsimp only
          have hsOk : sessionOk s := hm s (findSession_mem m sid s hfind)
          split
          · exact hm
          · next s1 hexc =>
              have hs1 : sessionOk s1 := by
                by_cases hp : s.ptyLive = true
                · rw [hp] at hexc
                  simp only [if_true] at hexc
                  cases hexc
                  exact hsOk
                · have hp2 : s.ptyLive = false := by
                    cases hb : s.ptyLive with
                    | true => exact absurd hb hp
                    | false => rfl
                  rw [hp2] at hexc
                  simp only [Bool.false_eq_true, if_false] at hexc
                  exact spawnPty_ok s s1 ok hexc hsOk
              try dsimp only
              apply mOk_replace m sid _ hm
              have hcapStat : ∀ (c : Session × List MEvent × Nat),
                  c.1.status = s1.status → c.1.statusDetector = s1.statusDetector →
                  sessionOk (routeDetector c.1 (c.1.statusDetector.onInput data)).1 := by
                intro c hstat hdet
                have h1 : okStatus (c.1.statusDetector.onInput data).1.status := by
                  rw [hdet]
                  exact onInput_status_ok s1.statusDetector data hs1.2
                have h2 : ∀ st, (c.1.statusDetector.onInput data).2 = some st →
                    okStatus st := by
                  intro st hst
                  exact (onInput_event c.1.statusDetector data st hst).1
                have h3 : okStatus c.1.status := by rw [hstat]; exact hs1.1
                have h4 := route_ok c.1 (c.1.statusDetector.onInput data).1
                  (c.1.statusDetector.onInput data).2 h1 h2 h3
                simpa using h4
              apply hcapStat
              · split
                · rfl
                · split
                  · exact (captureFirstInput_keeps _ _ _).1
                  · rfl
              · split
                · rfl
                · split
                  · exact (captureFirstInput_keeps _ _ _).2
                  · rfl
  | output sid data now =>
      show mOk (managerOnOutput m sid data now).state
      unfold managerOnOutput
      cases hfind : findSession m sid with
      | none => simp only [hfind]; exact hm
      | some s =>
          simp only [hfind]
          try dsimp only
          have hsOk : sessionOk s := hm s (findSession_mem m sid s hfind)
          apply mOk_replace m sid _ hm
          have h1 : okStatus (s.statusDetector.onOutput data now).1.status :=
            onOutput_status_ok s.statusDetector data now hsOk.2
          have h2 : ∀ st, (s.statusDetector.onOutput data now).2 = some st →
              okStatus st := fun st hst =>
            (onOutput_event s.statusDetector data now st hst).1
          have h4 := route_ok s (s.statusDetector.onOutput data now).1
            (s.statusDetector.onOutput data now).2 h1 h2 hsOk.1
          simpa using h4
  | tick now =>
      show mOk (managerTick m now).state
      intro t ht
      simp only [managerTick] at ht
      simp only [List.mem_map] at ht
      obtain ⟨a, ha, rfl⟩ := ht
      have haOk : sessionOk a := hm a ha
      unfold tickOne
      have h1 : okStatus (a.statusDetector.tick now).1.status :=
        tick_status_ok a.statusDetector now haOk.2
      have h2 : ∀ st, (a.statusDetector.tick now).2 = some st → okStatus st :=
        fun st hst => (tick_event a.statusDetector now st hst).1
      have h4 := route_ok a (a.statusDetector.tick now).1
        (a.statusDetector.tick now).2 h1 h2 haOk.1
      simpa using h4
  | exitOp sid =>
      show mOk (ptyExit m sid).state
      unfold ptyExit
      cases hfind : findSession m sid with
      | none => simp only [hfind]; exact hm
      | some s =>
          simp only [hfind]
          try dsimp only
          have hsOk : sessionOk s := hm s (findSession_mem m sid s hfind)
          exact mOk_replace m sid _ hm ⟨Or.inl rfl, hsOk.2⟩
  | archive sid =>
      show mOk (archiveSession m sid).state
      unfold archiveSession
      cases hfind : findSession m sid with
      | none => simp only [hfind]; exact hm
      | some s =>
          simp only [hfind]
          try dsimp only
          have hsOk : sessionOk s := hm s (findSession_mem m sid s hfind)
          exact mOk_replace m sid _ hm ⟨Or.inl rfl, hsOk.2⟩
  | unarchive sid =>
      show mOk (unarchiveSession m sid).state
      unfold unarchiveSession
      cases hfind : findSession m sid with
      | none => simp only [hfind]; exact hm
      | some s =>
          simp only [hfind]
          try dsimp only
          have hsOk : sessionOk s := hm s (findSession_mem m sid s hfind)
          exact mOk_replace m sid _ hm ⟨hsOk.1, hsOk.2⟩
  | rename sid name =>
      show mOk (renameSession m sid name).state
      unfold renameSession
      cases hfind : findSession m sid with
      | none => simp only [hfind]; exact hm
      | some s =>
          simp only [hfind]
          try dsimp only
          have hsOk : sessionOk s := hm s (findSession_mem m sid s hfind)
          exact mOk_replace m sid _ hm ⟨hsOk.1, hsOk.2⟩
  | delete sid =>
      show mOk (deleteSession m sid).state
      unfold deleteSession
      cases hfind : findSession m sid with
      | none => simp only [hfind]; exact hm
      | some s =>
          simp only [hfind]
          try dsimp only
          intro t ht
          simp only [List.mem_filter] at ht
          exact hm t ht.1
  | resize sid c r => exact hm
  | fire sid =>
      show mOk (managerTimeoutFire m sid).state
      unfold managerTimeoutFire
      cases hfind : findSession m sid with
      | none => simp only [hfind]; exact hm
      | some s =>
          simp only [hfind]
          try dsimp only
          have hsOk : sessionOk s := hm s (findSession_mem m sid s hfind)
          apply mOk_replace m sid _ hm
          have h1 : okStatus s.statusDetector.timeoutFire.1.status :=
            timeoutFire_status_ok s.statusDetector hsOk.2
          have h2 : ∀ st, s.statusDetector.timeoutFire.2 = some st → okStatus st :=
            fun st hst => (timeoutFire_event s.statusDetector st hst).1
          have h4 := route_ok s s.statusDetector.timeoutFire.1
            s.statusDetector.timeoutFire.2 h1 h2 hsOk.1
          simpa using h4
  | killAllOp => exact hm

theorem runOps_ok (m : SessionManager) (ops : List MOp) (hm : mOk m) :
    mOk (runOps m ops) := by
  induction ops generalizing m with
  | nil => exact hm
  | cons op rest ih => exact ih (mstep m op).state (mstep_ok m op hm)

/-! ## C10 and C1 -/

/-- C10: starting from an empty manager, no operation sequence can ever give
any session the status `error`: every reachable status is one of
`idle`/`working`/`waiting`/`draft` (no code path assigns `error`). -/
theorem status_error_unreachable (cwd : String) (ops : List MOp) :
    ∀ s ∈ (runOps { sessions := [], cwd := cwd } ops).sessions,
      okStatus s.status ∧ s.status ≠ "error" := by
  have hrun := runOps_ok { sessions := [], cwd := cwd } ops (by intro s hs; cases hs)
  intro s hs
  have hok := (hrun s hs).1
  refine ⟨hok, ?_⟩
  intro hcontra
  rw [hcontra] at hok
  cases hok with
  | inl h => exact absurd h (by decide)
  | inr h =>
      cases h with
      | inl h => exact absurd h (by decide)
      | inr h =>
          cases h with
          | inl h => exact absurd h (by decide)
          | inr h => exact absurd h (by decide)

/-- C1 (amended): after every reachable operation sequence each session's
status lies in the five-value enum `{idle, working, waiting, draft, error}`,
and a StatusDetector notification (`onStatusChange`) fires only when the new
value differs from the detector's current status; the manager-level
guarantee does NOT hold — the pty `onExit` handler emits an `idle` status
event unconditionally, so a manager status event can carry a value equal to
the session's current status (see the counterexample). -/
theorem status_enum_and_no_dup_notifications (cwd : String) (ops : List MOp) :
    (∀ s ∈ (runOps { sessions := [], cwd := cwd } ops).sessions, fiveStatus s.status) ∧
    ∀ (d : StatusDetector) (op : DOp) (st : String),
      (dstep d op).2 = some st → st ≠ d.status := by
  constructor
  · intro s hs
    have hrun := runOps_ok { sessions := [], cwd := cwd } ops (by intro t ht; cases ht)
    exact Or.inl (hrun s hs).1
  · intro d op st h
    exact (dstep_event d op st h).2

/-- C1 counterexample: create a session, archive it (status becomes `idle`
with no status event), then let the killed pty's `onExit` callback fire: it
emits a status event carrying `idle` — equal to the status current at that
moment. -/
theorem duplicate_status_event_counterexample :
    (findSession
      (archiveSession (createSession { sessions := [], cwd := "/w" } 1 true).state 1).state
      1).map Session.status = some "idle" ∧
    (ptyExit
      (archiveSession (createSession { sessions := [], cwd := "/w" } 1 true).state 1).state
      1).events = [MEvent.statusEv 1 "idle", MEvent.update] := by
  decide

/-- Witness for C10 at a concrete operation sequence. -/
theorem status_error_unreachable_witness :
    okStatus ({ freshSession 1 "/w" with ptyLive := true, status := "working" } : Session).status ∧
    ({ freshSession 1 "/w" with ptyLive := true, status := "working" } : Session).status ≠ "error" :=
  status_error_unreachable "/w" [MOp.create 1 true]
    { freshSession 1 "/w" with ptyLive := true, status := "working" }
    (by decide)

/-- Witness for C1 (amended) at a concrete operation sequence and a concrete
detector transition. -/
theorem status_enum_and_no_dup_notifications_witness :
    fiveStatus ({ freshSession 1 "/w" with ptyLive := true, status := "working" } : Session).status ∧
    "idle" ≠ ({ StatusDetector.init with status := "working" } : StatusDetector).status :=
  ⟨(status_enum_and_no_dup_notifications "/w" [MOp.create 1 true]).1
      { freshSession 1 "/w" with ptyLive := true, status := "working" } (by decide),
   (status_enum_and_no_dup_notifications "/w" [MOp.create 1 true]).2
      { StatusDetector.init with status := "working" } (DOp.rsz 0) "idle" (by decide)⟩
